import Mathlib

/-!
Verification development for the `abcd-modal` repository.

The definitions below are a shallow embedding of the streaming
orchestration layer of `abcd-modal.py` (the `stream_evaluation`
generator and its helpers), together with the parts of `models.py`
and `features_repository/gym_class_features.py` that the stated
properties depend on.

Modelling conventions:
* The feature registry (`feature_configs_handler`, not part of the
  sources under verification) is an abstract parameter `Registry`
  giving, per category, the list of group sizes; the code only uses
  `sum(len(features) for features in groups.values())`.
* External blocking collaborators (annotation generation, trimming,
  `evaluate_features`, BigQuery storage, local-file removal) are an
  abstract `Oracle`: each stage either succeeds or raises, and an
  evaluation stage additionally reports a sequence of
  `on_task_complete` callback increments, interleaved with possible
  keep-alive heartbeats, exactly as the poll loop of
  `run_with_keepalive` would drain them.
* Wall-clock timing is abstracted away in the main trace model; the
  timing behaviour of `run_with_keepalive` itself is embedded
  separately (`run_with_keepalive` below) for the heartbeat property.
-/

namespace AbcdModal

/-- Enum `models.VideoFeatureCategory` (models.py, lines 7-12): the enum has
exactly the members `LONG_FORM_ABCD`, `SHORTS` and `CUSTOM`. -/
inductive VideoFeatureCategory where
  | LONG_FORM_ABCD
  | SHORTS
  | CUSTOM
deriving DecidableEq, Repr

/-- Python attribute lookup `VideoFeatureCategory.<name>`: returns the
member when `name` is one of the enum's members, otherwise the access
raises `AttributeError` (modelled as `none`). -/
def videoFeatureCategoryAttr (name : String) : Option VideoFeatureCategory :=
  if name = "LONG_FORM_ABCD" then some VideoFeatureCategory.LONG_FORM_ABCD
  else if name = "SHORTS" then some VideoFeatureCategory.SHORTS
  else if name = "CUSTOM" then some VideoFeatureCategory.CUSTOM
  else none

/-- Enum `models.CreativeProviderType` (models.py, lines 43-47). -/
inductive CreativeProviderType where
  | GCS
  | YOUTUBE
deriving DecidableEq, Repr

/-- Python subscript `CreativeProviderType[name]` (`KeyError` → `none`). -/
def creativeProviderTypeItem (name : String) : Option CreativeProviderType :=
  if name = "GCS" then some CreativeProviderType.GCS
  else if name = "YOUTUBE" then some CreativeProviderType.YOUTUBE
  else none

/-- Whether `pat` starts the character list `s`. -/
def listBeginsWith : List Char → List Char → Bool
  | _, [] => true
  | [], _ :: _ => false
  | c :: cs, p :: ps => c == p && listBeginsWith cs ps

/-- Whether `pat` occurs somewhere in the character list `s`. -/
def listContainsSub : List Char → List Char → Bool
  | [], pat => pat.isEmpty
  | c :: cs, pat => listBeginsWith (c :: cs) pat || listContainsSub cs pat

/-- Python substring test `pat in s` (used as `"gs://" not in gcs_uri`
and `"youtube.com" not in gcs_uri` in the validation of
`stream_evaluation`). -/
def strContains (s pat : String) : Bool :=
  listContainsSub s.data pat.data

/-- ASCII uppercasing of one character, as Python's `str.upper()`
performs on the ASCII provider tags accepted by the endpoint. -/
def asciiUpper (c : Char) : Char :=
  if 'a' ≤ c ∧ c ≤ 'z' then Char.ofNat (c.toNat - 32) else c

/-- Python `creative_provider_type.upper()` (abcd-modal.py, line 596),
for ASCII strings. -/
def strUpper (s : String) : String :=
  ⟨s.data.map asciiUpper⟩

/-- One NDJSON record of the wire protocol of the streaming endpoint:
`{"status":"processing",...}`, `{"status":"complete",...}` or
`{"status":"error",...}`.  A `processing` record carries the step label
and the `completed`/`total` counters shown in its `progress` field; the
opaque result payload of `complete` is elided. -/
inductive Event where
  | processing (step : String) (completed total : Nat)
  | complete
  | error (msg : String)
deriving DecidableEq, Repr

/-- A `complete` or `error` record: a terminal event of a run. -/
def Event.isTerminal : Event → Bool
  | Event.processing _ _ _ => false
  | Event.complete => true
  | Event.error _ => true

/-- A `processing` record. -/
def Event.isProcessing : Event → Bool
  | Event.processing _ _ _ => true
  | _ => false

/-- The fields of the request body that the control flow and the
up-front total computation of `stream_evaluation` read
(abcd-modal.py, lines 515-521 and 567-593).  Fields that only flow
into the configuration object are omitted. -/
structure Request where
  gcs_uri : String
  use_annotations : Bool
  run_long_form_abcd : Bool
  run_shorts : Bool
  run_custom : Bool
  creative_provider_type : String
  bq_table_name : String
  features_to_evaluate : String
deriving DecidableEq, Repr

/-- The work-unit registry
(`feature_configs_handler.features_configs_handler`), abstracted: per
category, the sizes of the feature groups it reports.  The code only
uses `sum(len(features) for features in groups.values())`. -/
structure Registry where
  groups : VideoFeatureCategory → List Nat

/-- Python `sum(len(features) for features in groups.values())` for one
category (abcd-modal.py, lines 541, 546, 551). -/
def featureTaskCount (reg : Registry) (c : VideoFeatureCategory) : Nat :=
  (reg.groups c).sum

/-- The `base_steps` computation of `stream_evaluation`
(abcd-modal.py, lines 524-531): `4` fixed steps, plus one for each
conditionally enabled non-grouped step.  Note the conditions compare
the *raw* `creative_provider_type` request string against `"GCS"`. -/
def base_steps (req : Request) : Nat :=
  4 + (if req.use_annotations ∧ req.creative_provider_type = "GCS" then 1 else 0)
    + (if req.run_long_form_abcd ∧ req.creative_provider_type = "GCS" then 1 else 0)
    + (if req.bq_table_name ≠ "" then 1 else 0)

/-- Count `long_form_tasks` (abcd-modal.py, lines 534-541). -/
def long_form_tasks (req : Request) (reg : Registry) : Nat :=
  if req.run_long_form_abcd then featureTaskCount reg VideoFeatureCategory.LONG_FORM_ABCD else 0

/-- Count `shorts_tasks` (abcd-modal.py, lines 535-546). -/
def shorts_tasks (req : Request) (reg : Registry) : Nat :=
  if req.run_shorts then featureTaskCount reg VideoFeatureCategory.SHORTS else 0

/-- Count `custom_tasks` (abcd-modal.py, lines 536-551). -/
def custom_tasks (req : Request) (reg : Registry) : Nat :=
  if req.run_custom then featureTaskCount reg VideoFeatureCategory.CUSTOM else 0

/-- Assignment `total[0] = base_steps + long_form_tasks + shorts_tasks + custom_tasks`
(abcd-modal.py, line 553): the total fixed before the first stage. -/
def computedTotal (req : Request) (reg : Registry) : Nat :=
  base_steps req + long_form_tasks req reg + shorts_tasks req reg + custom_tasks req reg

/-- One observable emission of the poll loop of `run_with_keepalive`
while a stage is executing: either a drained `on_task_complete`
increment (`delta n` with `n` the `len(result)` of the finished task,
abcd-modal.py, lines 458-464) or a pure keep-alive heartbeat. -/
inductive KItem where
  | delta (n : Nat)
  | heartbeat
deriving DecidableEq, Repr

/-- What one stage run through `run_with_keepalive` does: the drained
progress items in order, then a normal return (`Except.ok`) or a raised
exception (`Except.error`). -/
structure KRun where
  items : List KItem
  result : Except String Unit

/-- Outcomes of all external blocking calls of one streaming run. -/
structure Oracle where
  setup_gcp_credentials : Except String Unit
  generate_video_annotations : KRun
  trim_video : KRun
  evaluate_long_form : KRun
  evaluate_shorts : KRun
  evaluate_custom : KRun
  store_in_bq : KRun
  remove_local_video_files : Except String Unit

/-- The shared mutable progress state of `stream_evaluation`
(`completed[0]`, `total[0]`, `current_step[0]`, abcd-modal.py, lines
447-449), together with the events emitted so far. -/
structure RunState where
  completed : Nat
  total : Nat
  current_step : String
  events : List Event

/-- Python `progress_msg()` (abcd-modal.py, lines 451-456): the `processing`
record for the current state. -/
def progress_msg (s : RunState) : Event :=
  Event.processing s.current_step s.completed s.total

/-- Python `yield progress_msg()`: append the current processing record. -/
def emit (s : RunState) : RunState :=
  { s with events := s.events ++ [progress_msg s] }

/-- Effect of one drained item inside `run_with_keepalive`'s poll loop:
a callback increment bumps `completed[0]` (abcd-modal.py, line 463)
and the subsequent drain yields `progress_msg()`; a heartbeat yields
`progress_msg()` unchanged (abcd-modal.py, lines 493-497). -/
def applyKItem (s : RunState) : KItem → RunState
  | KItem.delta n => emit { s with completed := s.completed + n }
  | KItem.heartbeat => emit s

/-- Python `run_with_keepalive(func, step_name)` as seen by the trace:
sets `current_step[0] = step_name` (abcd-modal.py, line 473), emits the
drained items, then returns normally or propagates the stage's
exception. -/
def run_stage (step_name : String) (k : KRun) (s : RunState) :
    RunState × Option String :=
  let s1 := { s with current_step := step_name }
  let s2 := k.items.foldl applyKItem s1
  match k.result with
  | Except.ok _ => (s2, none)
  | Except.error m => (s2, some m)

/-- Exception-propagating sequencing of the generator body: once a step
has raised, later steps do not run (the exception travels to the
`except` clause). -/
def thenRun (r : RunState × Option String) (f : RunState → RunState × Option String) :
    RunState × Option String :=
  match r with
  | (s, some m) => (s, some m)
  | (s, none) => f s

/-- The stage pipeline of the `stream_evaluation` generator after the
provider/locator validation has passed (abcd-modal.py, lines 661-777),
from the state reached after the "Building configuration" step.

It mirrors the source statement by statement; in particular the
"Evaluate Custom" block (lines 717-732) is nested inside the
`if run_shorts:` block and only the `current_step` assignment is
guarded by `if run_custom:`, exactly as in the source, and
`custom_results` is only ever assigned inside the `if run_shorts:`
block so the assessment construction (line 744) raises `NameError`
when `run_shorts` is false. -/
def stream_stages (req : Request) (orc : Oracle) (provider : CreativeProviderType)
    (s3 : RunState) : RunState × Option String :=
        let r0 : RunState × Option String := (s3, none)
        let r1 := thenRun r0 (fun s =>
          if req.use_annotations ∧ provider = CreativeProviderType.GCS then
            run_stage "Generating video annotations" orc.generate_video_annotations
              (emit { s with completed := s.completed + 1,
                             current_step := "Generating video annotations" })
          else (s, none))
        let r2 := thenRun r1 (fun s =>
          if req.run_long_form_abcd ∧ provider = CreativeProviderType.GCS then
            run_stage "Trimming video" orc.trim_video
              (emit { s with completed := s.completed + 1,
                             current_step := "Trimming video" })
          else (s, none))
        let r3 := thenRun r2 (fun s =>
          if req.run_long_form_abcd then
            run_stage "Evaluating long-form ABCD features" orc.evaluate_long_form
              (emit { s with current_step := "Evaluating long-form ABCD features" })
          else (s, none))
        let r4 := thenRun r3 (fun s =>
          if req.run_shorts then
            thenRun (run_stage "Evaluating Shorts features" orc.evaluate_shorts
                (emit { s with current_step := "Evaluating Shorts features" }))
              (fun s' =>
                let s'' :=
                  if req.run_custom then
                    { s' with current_step := "Evaluating Custom features" }
                  else s'
                run_stage "Evaluating Custom features" orc.evaluate_custom (emit s''))
          else (s, none))
        let r5 := thenRun r4 (fun s =>
          let s' := emit { s with completed := s.completed + 1,
                                  current_step := "Building assessment" }
          if req.run_shorts then (s', none)
          else (s', some "name 'custom_results' is not defined"))
        let r6 := thenRun r5 (fun s =>
          if req.bq_table_name ≠ "" then
            run_stage "Storing results in BigQuery" orc.store_in_bq
              (emit { s with completed := s.completed + 1,
                             current_step := "Storing results in BigQuery" })
          else (s, none))
        thenRun r6 (fun s =>
          let s' := emit { s with completed := s.completed + 1,
                                  current_step := "Cleaning up" }
          match orc.remove_local_video_files with
          | Except.ok _ => (s', none)
          | Except.error m => (s', some m))

/-- The `try:` body of the `stream_evaluation` generator
(abcd-modal.py, lines 503-777), as a function from the request, the
registry and the collaborator oracle to the emitted `processing`
events plus the exception, if one was raised.  The up-front total
computation, the two initial fixed steps and the provider/locator
validation happen here; the stage pipeline is `stream_stages`. -/
def stream_body (req : Request) (reg : Registry) (orc : Oracle) :
    RunState × Option String :=
  let s0 : RunState :=
    { completed := 0, total := 0, current_step := "Initializing", events := [] }
  match orc.setup_gcp_credentials with
  | Except.error m => (s0, some m)
  | Except.ok _ =>
    let s1 := { s0 with total := computedTotal req reg, completed := 0 }
    let s2 := emit { s1 with completed := 1, current_step := "Setting up credentials" }
    let s3 := emit { s2 with completed := 2, current_step := "Building configuration" }
    match creativeProviderTypeItem (strUpper req.creative_provider_type) with
    | none => (s3, some ("KeyError: " ++ (strUpper req.creative_provider_type)))
    | some provider =>
      if provider = CreativeProviderType.GCS ∧ ¬ strContains req.gcs_uri "gs://" then
        (s3, some ("Creative provider GCS does not match video URI " ++ req.gcs_uri))
      else if provider = CreativeProviderType.YOUTUBE ∧ ¬ strContains req.gcs_uri "youtube.com" then
        (s3, some ("Creative provider YOUTUBE does not match video URI " ++ req.gcs_uri))
      else
        stream_stages req orc provider s3

/-- The terminal record the generator yields after the body: line 780
on normal return, line 783 for a raised exception. -/
def terminalEvent : Option String → Event
  | none => Event.complete
  | some m => Event.error m

/-- The observable outcome of one complete streaming run: the event
list in emission order and what the cleanup paths did. -/
structure Trace where
  events : List Event
  creds_removed : Bool
  executor_shutdown : Bool
  local_videos_removed : Bool
deriving Repr

/-- The whole `stream_evaluation` generator (abcd-modal.py, lines
438-789): the `try:` body, then the terminal `complete`/`error`
record, then the `finally:` clause which removes the credentials file
when it was created (lines 787-788) and always shuts the executor down
(line 789).  `remove_local_video_files` runs inside the `try:` body
(line 777), so `local_videos_removed` is true exactly when the body
reached it and it succeeded. -/
def stream_evaluation (req : Request) (reg : Registry) (orc : Oracle) : Trace :=
  let r := stream_body req reg orc
  { events := r.1.events ++ [terminalEvent r.2]
    creds_removed :=
      match orc.setup_gcp_credentials with
      | Except.ok _ => true
      | Except.error _ => false
    executor_shutdown := true
    local_videos_removed :=
      match r.2 with
      | none => true
      | some _ => false }

/-! Section: timing model of `run_with_keepalive`.

`run_with_keepalive` (abcd-modal.py, lines 469-499) polls the stage's
future with `asyncio.wait_for(..., timeout=2)` and forces a keep-alive
`processing` record whenever 30 time units elapsed since the last one
(`keepalive_interval = 30`, line 476).  The embedding below is the
loop for a stage whose blocking call produces no
`on_task_complete` callbacks (the progress queue stays empty, so
`updates_found` is always false and the completion branch drains
nothing): polls happen 2 time units apart, and a heartbeat fires when
`since_last + 2 ≥ 30`.  The stage's future completes `remaining` time
units from now; a wait that covers the completion returns the result
and ends the loop.  The first argument is structural fuel; it is
consumed once per poll, so fuel equal to `remaining` is always
sufficient because each poll consumes 2 time units. -/

/-- One streaming run's keepalive poll loop for a stage with no
internal progress, emitting heartbeat `processing` records with the
entry snapshot `completed`/`total` and step label. -/
def keepalive_go (completed total : Nat) (step_name : String) :
    Nat → Nat → Nat → List Event
  | 0, _, _ => []
  | fuel + 1, remaining, since_last =>
    if remaining ≤ 2 then []
    else if since_last + 2 ≥ 30 then
      Event.processing step_name completed total ::
        keepalive_go completed total step_name fuel (remaining - 2) 0
    else
      keepalive_go completed total step_name fuel (remaining - 2) (since_last + 2)

/-- Python `run_with_keepalive(func, step_name)` for a callback-free blocking
call that takes `duration` time units, entered with the given progress
snapshot: the heartbeat `processing` records it yields. -/
def run_with_keepalive (completed total : Nat) (step_name : String)
    (duration : Nat) : List Event :=
  keepalive_go completed total step_name duration duration 0

/-! Section: embedding of `models.py`. -/

/-- Enum `models.VideoFeatureSubCategory` (models.py, lines 15-22). -/
inductive VideoFeatureSubCategory where
  | ATTRACT
  | BRAND
  | CONNECT
  | DIRECT
  | NONE
deriving DecidableEq, Repr

/-- Enum `models.VideoSegment` (models.py, lines 25-31). -/
inductive VideoSegment where
  | FULL_VIDEO
  | FIRST_5_SECS_VIDEO
  | LAST_5_SECS_VIDEO
  | NONE
deriving DecidableEq, Repr

/-- Enum `models.EvaluationMethod` (models.py, lines 34-40). -/
inductive EvaluationMethod where
  | LLMS_AND_ANNOTATIONS
  | LLMS
  | LLMS_CATEGORICAL
  | ANNOTATIONS
deriving DecidableEq, Repr

/-- The `.value` string of a `VideoFeatureCategory` member. -/
def VideoFeatureCategory.value : VideoFeatureCategory → String
  | VideoFeatureCategory.LONG_FORM_ABCD => "LONG_FORM_ABCD"
  | VideoFeatureCategory.SHORTS => "SHORTS"
  | VideoFeatureCategory.CUSTOM => "CUSTOM"

/-- The `.value` string of a `VideoFeatureSubCategory` member. -/
def VideoFeatureSubCategory.value : VideoFeatureSubCategory → String
  | VideoFeatureSubCategory.ATTRACT => "ATTRACT"
  | VideoFeatureSubCategory.BRAND => "BRAND"
  | VideoFeatureSubCategory.CONNECT => "CONNECT"
  | VideoFeatureSubCategory.DIRECT => "DIRECT"
  | VideoFeatureSubCategory.NONE => "NONE"

/-- The `.value` string of a `VideoSegment` member; note
`NONE = "NO_GROUPING"` (models.py, line 31). -/
def VideoSegment.value : VideoSegment → String
  | VideoSegment.FULL_VIDEO => "FULL_VIDEO"
  | VideoSegment.FIRST_5_SECS_VIDEO => "FIRST_5_SECS_VIDEO"
  | VideoSegment.LAST_5_SECS_VIDEO => "LAST_5_SECS_VIDEO"
  | VideoSegment.NONE => "NO_GROUPING"

/-- Dataclass `models.VideoFeature` (models.py, lines 50-65).  The fields that
carry prompt plumbing and are read by no stated property
(`prompt_template`, `extra_instructions`, `evaluation_function`,
`group_by`) are omitted. -/
structure VideoFeature where
  id : String
  name : String
  category : VideoFeatureCategory
  sub_category : VideoFeatureSubCategory
  video_segment : VideoSegment
  evaluation_criteria : String
  evaluation_method : EvaluationMethod
  include_in_evaluation : Bool
deriving Repr

/-- A JSON-serializable Python value, as produced by the `to_dict`
methods of `models.py` (dicts keep key order, as in CPython). -/
inductive PyValue where
  | str (v : String)
  | bool (v : Bool)
  | num (v : Float)
  | arr (l : List PyValue)
  | dict (l : List (String × PyValue))

/-- Dataclass `models.FeatureEvaluation` (models.py, lines 68-79). -/
structure FeatureEvaluation where
  feature : VideoFeature
  detected : Bool
  confidence_score : Float
  rationale : String
  evidence : String
  strengths : String
  weaknesses : String
  evaluation : String

/-- Method `FeatureEvaluation.to_dict` (models.py, lines 81-107).  In this
embedding the category fields are always enum members, so the
`hasattr(..., "value")` branches take the `.value` form; the
`"evaluation"` key is appended only when `self.evaluation` is a
non-empty string (line 105). -/
def FeatureEvaluation.to_dict (fe : FeatureEvaluation) : List (String × PyValue) :=
  let result : List (String × PyValue) :=
    [("feature_id", PyValue.str fe.feature.id),
     ("feature_name", PyValue.str fe.feature.name),
     ("category", PyValue.str fe.feature.category.value),
     ("sub_category", PyValue.str fe.feature.sub_category.value),
     ("video_segment", PyValue.str fe.feature.video_segment.value),
     ("evaluation_criteria", PyValue.str fe.feature.evaluation_criteria),
     ("detected", PyValue.bool fe.detected),
     ("confidence_score", PyValue.num fe.confidence_score),
     ("rationale", PyValue.str fe.rationale),
     ("evidence", PyValue.str fe.evidence),
     ("strengths", PyValue.str fe.strengths),
     ("weaknesses", PyValue.str fe.weaknesses)]
  if fe.evaluation ≠ "" then result ++ [("evaluation", PyValue.str fe.evaluation)]
  else result

/-- Dataclass `models.VideoAssessment` (models.py, lines 110-119).  The `config`
field is annotated `any` in the source; it is a type parameter here. -/
structure VideoAssessment (α : Type) where
  brand_name : String
  video_uri : String
  long_form_abcd_evaluated_features : List FeatureEvaluation
  shorts_evaluated_features : List FeatureEvaluation
  custom_evaluated_features : List FeatureEvaluation
  config : α

/-- Method `VideoAssessment.to_dict` (models.py, lines 121-135). -/
def VideoAssessment.to_dict {α : Type} (a : VideoAssessment α) :
    List (String × PyValue) :=
  [("brand_name", PyValue.str a.brand_name),
   ("video_uri", PyValue.str a.video_uri),
   ("long_form_abcd_evaluated_features",
     PyValue.arr (a.long_form_abcd_evaluated_features.map
       (fun f => PyValue.dict f.to_dict))),
   ("shorts_evaluated_features",
     PyValue.arr (a.shorts_evaluated_features.map
       (fun f => PyValue.dict f.to_dict))),
   ("custom_evaluated_features",
     PyValue.arr (a.custom_evaluated_features.map
       (fun f => PyValue.dict f.to_dict)))]

/-! Section: embedding of `features_repository/gym_class_features.py`. -/

/-- The `(id, name)` pairs of the 23 `VideoFeature` literals of
`get_gym_class_feature_configs`
(features_repository/gym_class_features.py, lines 23-952), in source
order. -/
def gym_class_feature_items : List (String × String) :=
  [("gc_high_video_quality", "High Video Quality"),
   ("gc_smooth_frame_rate", "Smooth Frame Rate"),
   ("gc_no_black_borders", "No Black Borders from VR Capture"),
   ("gc_no_boundary_mesh", "No Boundary Mesh Visible"),
   ("gc_balanced_audio", "Balanced Audio Levels"),
   ("gc_clear_audio_separation", "Clear Audio Separation"),
   ("gc_first_person_start", "Starts in First Person Perspective"),
   ("gc_early_movement_hook", "Movement and Hook in First Two Seconds"),
   ("gc_compelling_hook", "Has Compelling Hook"),
   ("gc_ideal_length", "Ideal Video Length (9-20 seconds)"),
   ("gc_meets_minimum_duration", "Meets Minimum Duration (6+ seconds)"),
   ("gc_broad_relevance", "Has Broad Relevance Beyond Gym Class Community"),
   ("gc_sufficient_gameplay_footage", "Sufficient Gym Class Footage (50%+)"),
   ("gc_has_editing", "Has Video Editing"),
   ("gc_no_capcut_logo", "No CapCut Logo"),
   ("gc_appropriate_text_coverage", "Appropriate Text Coverage"),
   ("gc_is_understandable", "Video is Understandable"),
   ("gc_not_low_effort_content", "Not Low-Effort Content"),
   ("gc_not_just_compilation", "Not Just a Compilation with No Context"),
   ("content_standard_age_appropriate", "Age Appropriate Content"),
   ("content_standard_community_guidelines", "Adheres to Community Standards"),
   ("content_standard_relevance", "Relevant Gym Class Content"),
   ("content_standard_parsability", "Visually Parsable Content")]

/-- Construction of one `VideoFeature` literal of
`get_gym_class_feature_configs`: every one of the 23 literals passes
`category=VideoFeatureCategory.GYM_CLASS`
(gym_class_features.py, lines 30, 67, 106, ...), so the attribute is
resolved before the constructor can be applied.  All of its
`sub_category` arguments are `VideoFeatureSubCategory.NONE`; the long
evaluation-criteria and prompt texts, which no property reads and
which cannot be reached past the failing attribute access, are elided
as `""`. -/
def mkGymClassFeature (p : String × String) : Except String VideoFeature :=
  match videoFeatureCategoryAttr "GYM_CLASS" with
  | none =>
    Except.error "AttributeError: type object 'VideoFeatureCategory' has no attribute 'GYM_CLASS'"
  | some c =>
    Except.ok
      { id := p.1, name := p.2, category := c
        sub_category := VideoFeatureSubCategory.NONE
        video_segment := VideoSegment.FULL_VIDEO
        evaluation_criteria := ""
        evaluation_method := EvaluationMethod.LLMS
        include_in_evaluation := true }

/-- Function `get_gym_class_feature_configs` (gym_class_features.py, lines
14-952): the list literal of the 23 features, evaluated left to right
as in Python. -/
def get_gym_class_feature_configs : Except String (List VideoFeature) :=
  gym_class_feature_items.mapM mkGymClassFeature

/-! Section: concrete runs used in counterexamples and witnesses. -/

/-- A registry with one long-form group of 1 feature, one Shorts group
of 1 feature and one custom group of 2 features. -/
def regSmall : Registry :=
  { groups := fun c => match c with
      | VideoFeatureCategory.LONG_FORM_ABCD => [1]
      | VideoFeatureCategory.SHORTS => [1]
      | VideoFeatureCategory.CUSTOM => [2] }

/-- A stage that succeeds without reporting progress items. -/
def okRun : KRun := { items := [], result := Except.ok () }

/-- Collaborators that all succeed, with each evaluation stage
reporting exactly the per-task feature counts of `regSmall` through
`on_task_complete`. -/
def orcHappy : Oracle :=
  { setup_gcp_credentials := Except.ok ()
    generate_video_annotations := okRun
    trim_video := okRun
    evaluate_long_form := { items := [KItem.delta 1], result := Except.ok () }
    evaluate_shorts := { items := [KItem.delta 1], result := Except.ok () }
    evaluate_custom := { items := [KItem.delta 1, KItem.delta 1], result := Except.ok () }
    store_in_bq := okRun
    remove_local_video_files := Except.ok () }

/-- A GCS request with annotations off, no BigQuery table, no check
filter and all three categories enabled. -/
def reqHappy : Request :=
  { gcs_uri := "gs://bucket/video.mp4", use_annotations := false,
    run_long_form_abcd := true, run_shorts := true, run_custom := true,
    creative_provider_type := "GCS", bq_table_name := "",
    features_to_evaluate := "" }

/-- Variant of `reqHappy` with `run_custom` disabled: the failing input for the
progress-accounting properties. -/
def reqNoCustom : Request :=
  { reqHappy with run_custom := false }

/-- A request whose locator uses the GCS scheme while the provider tag
is the YouTube family. -/
def reqMismatch : Request :=
  { reqHappy with creative_provider_type := "YOUTUBE" }

/-- A request restricting evaluation to a single check id, with only
the long-form category enabled. -/
def reqFiltered : Request :=
  { reqHappy with run_shorts := false, run_custom := false,
                  features_to_evaluate := "gc_single_check" }

/-- A registry whose long-form category has two groups of 2 and 1
features. -/
def regFiltered : Registry :=
  { groups := fun c => match c with
      | VideoFeatureCategory.LONG_FORM_ABCD => [2, 1]
      | VideoFeatureCategory.SHORTS => [9]
      | VideoFeatureCategory.CUSTOM => [9] }

/-- Variant of `orcHappy` with a failing video-trimming stage. -/
def orcTrimFail : Oracle :=
  { orcHappy with trim_video := { items := [], result := Except.error "ffmpeg failed" } }

/-- All events a state has emitted so far are `processing` records. -/
def EventsOk (s : RunState) : Prop :=
  ∀ e ∈ s.events, e.isProcessing = true

/-! Section: helper lemmas. -/

lemma eventsOk_emit (s : RunState) (h : EventsOk s) : EventsOk (emit s) := by
  intro e he
  simp only [emit, List.mem_append, List.mem_singleton] at he
  rcases he with he | he
  · exact h e he
  · subst he; rfl

lemma eventsOk_applyKItem (s : RunState) (i : KItem) (h : EventsOk s) :
    EventsOk (applyKItem s i) := by
  cases i with
  | delta n => exact eventsOk_emit _ (fun e he => h e he)
  | heartbeat => exact eventsOk_emit _ h

lemma eventsOk_foldl (items : List KItem) (s : RunState) (h : EventsOk s) :
    EventsOk (items.foldl applyKItem s) := by
  induction items generalizing s with
  | nil => exact h
  | cons i is ih => exact ih _ (eventsOk_applyKItem s i h)

lemma eventsOk_run_stage (n : String) (k : KRun) (s : RunState) (h : EventsOk s) :
    EventsOk (run_stage n k s).1 := by
  unfold run_stage
  cases k.result with
  | ok u => exact eventsOk_foldl _ _ (fun e he => h e he)
  | error m => exact eventsOk_foldl _ _ (fun e he => h e he)

lemma eventsOk_thenRun (r : RunState × Option String)
    (f : RunState → RunState × Option String)
    (hr : EventsOk r.1) (hf : ∀ s, EventsOk s → EventsOk (f s).1) :
    EventsOk (thenRun r f).1 := by
  obtain ⟨s, o⟩ := r
  cases o with
  | none => exact hf s hr
  | some m => exact hr

lemma eventsOk_stream_stages (req : Request) (orc : Oracle)
    (provider : CreativeProviderType) (s3 : RunState) (h : EventsOk s3) :
    EventsOk (stream_stages req orc provider s3).1 := by
  unfold stream_stages
  refine eventsOk_thenRun _ _ (eventsOk_thenRun _ _ (eventsOk_thenRun _ _
    (eventsOk_thenRun _ _ (eventsOk_thenRun _ _ (eventsOk_thenRun _ _
      (eventsOk_thenRun _ _ h ?_) ?_) ?_) ?_) ?_) ?_) ?_
  · intro s hs
    split
    · exact eventsOk_run_stage _ _ _ (eventsOk_emit _ (fun e he => hs e he))
    · exact hs
  · intro s hs
    split
    · exact eventsOk_run_stage _ _ _ (eventsOk_emit _ (fun e he => hs e he))
    · exact hs
  · intro s hs
    split
    · exact eventsOk_run_stage _ _ _ (eventsOk_emit _ (fun e he => hs e he))
    · exact hs
  · intro s hs
    split
    · refine eventsOk_thenRun _ _
        (eventsOk_run_stage _ _ _ (eventsOk_emit _ (fun e he => hs e he))) ?_
      intro s' hs'
      dsimp only
      apply eventsOk_run_stage
      apply eventsOk_emit
      split
      · exact fun e he => hs' e he
      · exact hs'
    · exact hs
  · intro s hs
    dsimp only
    split
    · exact eventsOk_emit _ (fun e he => hs e he)
    · exact eventsOk_emit _ (fun e he => hs e he)
  · intro s hs
    split
    · exact eventsOk_run_stage _ _ _ (eventsOk_emit _ (fun e he => hs e he))
    · exact hs
  · intro s hs
    dsimp only
    split
    · exact eventsOk_emit _ (fun e he => hs e he)
    · exact eventsOk_emit _ (fun e he => hs e he)

lemma eventsOk_stream_body (req : Request) (reg : Registry) (orc : Oracle) :
    EventsOk (stream_body req reg orc).1 := by
  have hbase : ∀ s : RunState, s.events = [] → EventsOk s := by
    intro s hs e he
    rw [hs] at he
    simp at he
  unfold stream_body
  cases orc.setup_gcp_credentials with
  | error m =>
    dsimp only
    exact hbase _ rfl
  | ok u =>
    dsimp only
    cases creativeProviderTypeItem (strUpper req.creative_provider_type) with
    | none =>
      dsimp only
      exact eventsOk_emit _ (eventsOk_emit _ (hbase _ rfl))
    | some provider =>
      dsimp only
      split
      · exact eventsOk_emit _ (eventsOk_emit _ (hbase _ rfl))
      · split
        · exact eventsOk_emit _ (eventsOk_emit _ (hbase _ rfl))
        · exact eventsOk_stream_stages _ _ _ _
            (eventsOk_emit _ (eventsOk_emit _ (hbase _ rfl)))

lemma keepalive_go_mem (completed total : Nat) (name : String) :
    ∀ fuel r s, s % 2 = 0 → s ≤ 28 → 31 ≤ r + s → 30 ≤ 2 * fuel + s →
      Event.processing name completed total ∈ keepalive_go completed total name fuel r s := by
  intro fuel
  induction fuel with
  | zero =>
    intro r s h2 h28 hr hf
    omega
  | succ fuel ih =>
    intro r s h2 h28 hr hf
    rw [keepalive_go]
    rw [if_neg (by omega : ¬ r ≤ 2)]
    by_cases hka : 30 ≤ s + 2
    · rw [if_pos hka]
      exact List.mem_cons_self _ _
    · rw [if_neg hka]
      exact ih (r - 2) (s + 2) (by omega) (by omega) (by omega) (by omega)

lemma keepalive_go_all (completed total : Nat) (name : String) :
    ∀ fuel r s, ∀ e ∈ keepalive_go completed total name fuel r s,
      e = Event.processing name completed total := by
  intro fuel
  induction fuel with
  | zero =>
    intro r s e he
    simp [keepalive_go] at he
  | succ fuel ih =>
    intro r s e he
    rw [keepalive_go] at he
    by_cases hdone : r ≤ 2
    · rw [if_pos hdone] at he
      simp at he
    · rw [if_neg hdone] at he
      by_cases hka : 30 ≤ s + 2
      · rw [if_pos hka] at he
        rcases List.mem_cons.mp he with h | h
        · exact h
        · exact ih _ _ _ h
      · rw [if_neg hka] at he
        exact ih _ _ _ he

/-! Section: claim theorems. -/

/-- C1.  With `run_long_form_abcd` and `run_shorts` enabled but
`run_custom` disabled, and collaborators reporting exactly the
registry's per-task feature counts, the run still evaluates the Custom
category (the block is nested under `if run_shorts:` and `if
run_custom:` guards only the step label), so the emitted trace reaches
`complete` with cumulative completed count 9 while the up-front total
is 7: the sum of completed-deltas across the `processing` events does
not equal the total computed before the first stage. -/
theorem stream_trace_custom_flag_ignored :
    (stream_evaluation reqNoCustom regSmall orcHappy).events =
      [Event.processing "Setting up credentials" 1 7,
       Event.processing "Building configuration" 2 7,
       Event.processing "Trimming video" 3 7,
       Event.processing "Evaluating long-form ABCD features" 3 7,
       Event.processing "Evaluating long-form ABCD features" 4 7,
       Event.processing "Evaluating Shorts features" 4 7,
       Event.processing "Evaluating Shorts features" 5 7,
       Event.processing "Evaluating Shorts features" 5 7,
       Event.processing "Evaluating Custom features" 6 7,
       Event.processing "Evaluating Custom features" 7 7,
       Event.processing "Building assessment" 8 7,
       Event.processing "Cleaning up" 9 7,
       Event.complete] ∧
    computedTotal reqNoCustom regSmall = 7 := by
  exact ⟨rfl, rfl⟩

/-- C6.  At the same failing input as C1, the event emitted for the
"Building assessment" step reports `completed = 8` against the fixed
`total = 7`: an emitted `processing` event violates
`completed ≤ total`. -/
theorem completed_exceeds_total_event :
    Event.processing "Building assessment" 8 7 ∈
      (stream_evaluation reqNoCustom regSmall orcHappy).events ∧
    computedTotal reqNoCustom regSmall = 7 ∧ 7 < 8 := by
  refine ⟨by decide, rfl, by omega⟩

/-- C4.  Every streaming run emits exactly one terminal event
(`complete` or `error`), it is the last event of the run, and every
event before it is a `processing` record. -/
theorem terminal_event_last_and_unique (req : Request) (reg : Registry) (orc : Oracle) :
    ∃ pre last, (stream_evaluation req reg orc).events = pre ++ [last] ∧
      last.isTerminal = true ∧ ∀ e ∈ pre, e.isTerminal = false := by
  refine ⟨(stream_body req reg orc).1.events,
    terminalEvent (stream_body req reg orc).2, rfl, ?_, ?_⟩
  · cases h : (stream_body req reg orc).2 <;> simp [terminalEvent, Event.isTerminal]
  · intro e he
    have hp := eventsOk_stream_body req reg orc e he
    cases e with
    | processing step c t => rfl
    | complete => simp [Event.isProcessing] at hp
    | error m => simp [Event.isProcessing] at hp

/-- C5.  If a stage's blocking call takes longer than the heartbeat
interval of 30 time units and produces no progress callbacks, the
keepalive loop emits at least one `processing` event before the stage
finishes, and every event it emits carries the unchanged progress
snapshot. -/
theorem run_with_keepalive_emits_heartbeat (completed total : Nat) (name : String)
    (duration : Nat) (h : 30 < duration) :
    Event.processing name completed total ∈
      run_with_keepalive completed total name duration ∧
    ∀ e ∈ run_with_keepalive completed total name duration,
      e = Event.processing name completed total := by
  constructor
  · exact keepalive_go_mem completed total name duration duration 0
      rfl (by omega) (by omega) (by omega)
  · exact keepalive_go_all completed total name duration duration 0

/-- Witness for C5: a 32-time-unit stage entered at progress 5/9
emits an unchanged heartbeat. -/
theorem run_with_keepalive_emits_heartbeat_witness :
    30 < 32 ∧
    (Event.processing "Trimming video" 5 9 ∈ run_with_keepalive 5 9 "Trimming video" 32 ∧
     ∀ e ∈ run_with_keepalive 5 9 "Trimming video" 32,
       e = Event.processing "Trimming video" 5 9) :=
  ⟨by omega, run_with_keepalive_emits_heartbeat 5 9 "Trimming video" 32 (by omega)⟩

/-- C9.  `get_gym_class_feature_configs` always raises: the attribute
`VideoFeatureCategory.GYM_CLASS` referenced by its first feature
literal is not a member of the enum, so the function never returns a
feature list. -/
theorem gym_class_configs_raise_attribute_error :
    get_gym_class_feature_configs =
      Except.error "AttributeError: type object 'VideoFeatureCategory' has no attribute 'GYM_CLASS'" := by
  rfl

/-- C10.  For every `VideoAssessment`, `to_dict` returns exactly the
five keys `brand_name`, `video_uri`,
`long_form_abcd_evaluated_features`, `shorts_evaluated_features` and
`custom_evaluated_features`, in that order; the stored `config` field
is never among the keys. -/
theorem video_assessment_to_dict_keys (α : Type) (a : VideoAssessment α) :
    (VideoAssessment.to_dict a).map Prod.fst =
      ["brand_name", "video_uri", "long_form_abcd_evaluated_features",
       "shorts_evaluated_features", "custom_evaluated_features"] ∧
    "config" ∉ (VideoAssessment.to_dict a).map Prod.fst := by
  refine ⟨rfl, ?_⟩
  have hk : (VideoAssessment.to_dict a).map Prod.fst =
      ["brand_name", "video_uri", "long_form_abcd_evaluated_features",
       "shorts_evaluated_features", "custom_evaluated_features"] := rfl
  rw [hk]
  decide

/-- C2 counterexample.  For a `gs://` locator with provider tag
`YOUTUBE`, the run does emit exactly one `error` event, but it emits
two `processing` events (the setup-credentials and
build-configuration fixed steps) before it, not zero. -/
theorem mismatch_emits_processing_events :
    ((stream_evaluation reqMismatch regSmall orcHappy).events.filter
      Event.isProcessing).length = 2 ∧
    (stream_evaluation reqMismatch regSmall orcHappy).events.filter Event.isTerminal =
      [Event.error "Creative provider YOUTUBE does not match video URI gs://bucket/video.mp4"] := by
  exact ⟨rfl, rfl⟩

/-- C2 (amended).  When the provider tag upper-cases to `YOUTUBE` and
the locator does not contain `youtube.com` (in particular for any
plain `gs://` locator), the run's full event sequence is the two fixed
initial `processing` events followed by a single `error` event: no
keepalive stage executes before the failure and nothing follows the
error. -/
theorem youtube_mismatch_single_error (req : Request) (reg : Registry) (orc : Oracle)
    (hsetup : orc.setup_gcp_credentials = Except.ok ())
    (hprov : strUpper req.creative_provider_type = "YOUTUBE")
    (huri : strContains req.gcs_uri "youtube.com" = false) :
    (stream_evaluation req reg orc).events =
      [Event.processing "Setting up credentials" 1 (computedTotal req reg),
       Event.processing "Building configuration" 2 (computedTotal req reg),
       Event.error ("Creative provider YOUTUBE does not match video URI " ++ req.gcs_uri)] := by
  have hev : (stream_evaluation req reg orc).events =
      (stream_body req reg orc).1.events ++
        [terminalEvent (stream_body req reg orc).2] := rfl
  rw [hev]
  unfold stream_body
  rw [hsetup, hprov]
  have h1 : creativeProviderTypeItem "YOUTUBE" = some CreativeProviderType.YOUTUBE := rfl
  rw [h1]
  dsimp only
  rw [if_neg (by rintro ⟨h, -⟩; exact absurd h (by decide))]
  rw [if_pos ⟨rfl, by simp [huri]⟩]
  simp [emit, progress_msg, terminalEvent]

/-- Witness for C2's amended theorem at the concrete mismatching
request. -/
theorem youtube_mismatch_single_error_witness :
    orcHappy.setup_gcp_credentials = Except.ok () ∧
    strUpper reqMismatch.creative_provider_type = "YOUTUBE" ∧
    strContains reqMismatch.gcs_uri "youtube.com" = false ∧
    (stream_evaluation reqMismatch regSmall orcHappy).events =
      [Event.processing "Setting up credentials" 1 (computedTotal reqMismatch regSmall),
       Event.processing "Building configuration" 2 (computedTotal reqMismatch regSmall),
       Event.error ("Creative provider YOUTUBE does not match video URI " ++
         reqMismatch.gcs_uri)] :=
  ⟨rfl, rfl, rfl, youtube_mismatch_single_error reqMismatch regSmall orcHappy rfl rfl rfl⟩

/-- C3 counterexample.  With a filter restricting evaluation to the
single check id `gc_single_check` and only the long-form category
enabled over a registry with 3 long-form features, the computed total
is `base_steps + 3` (the full registry count), not `base_steps + 1`. -/
theorem filtered_total_counterexample :
    reqFiltered.features_to_evaluate = "gc_single_check" ∧
    computedTotal reqFiltered regFiltered = base_steps reqFiltered + 3 ∧
    base_steps reqFiltered = 5 ∧
    (5 : Nat) + 3 ≠ 5 + 1 := by
  exact ⟨rfl, rfl, rfl, by omega⟩

/-- C3 (amended).  The up-front total computation never reads the
check filter: the computed total is the same for any value of
`features_to_evaluate`, and always counts the registry's full feature
count for each enabled category. -/
theorem computedTotal_ignores_filter (req : Request) (reg : Registry) (s : String) :
    computedTotal { req with features_to_evaluate := s } reg = computedTotal req reg := by
  rfl

/-- C7 counterexample.  When the video-trimming stage fails
mid-pipeline, the run exits with an `error` event and the credentials
file is removed and the executor shut down, but the local video files
are NOT removed (their removal happens inside the `try:` body, not in
the `finally:` clause). -/
theorem cleanup_videos_not_removed_on_failure :
    (stream_evaluation reqHappy regSmall orcTrimFail).events.getLast? =
      some (Event.error "ffmpeg failed") ∧
    (stream_evaluation reqHappy regSmall orcTrimFail).local_videos_removed = false ∧
    (stream_evaluation reqHappy regSmall orcTrimFail).creds_removed = true ∧
    (stream_evaluation reqHappy regSmall orcTrimFail).executor_shutdown = true := by
  exact ⟨rfl, rfl, rfl, rfl⟩

/-- C7 (amended).  On every exit path the `finally:` clause shuts the
dedicated worker down, and removes the temporary credentials file
exactly when it was created; local video files are removed exactly on
the success path (the run whose terminal event is `complete`). -/
theorem cleanup_always_runs (req : Request) (reg : Registry) (orc : Oracle) :
    (stream_evaluation req reg orc).executor_shutdown = true ∧
    ((stream_evaluation req reg orc).creds_removed = true ↔
      orc.setup_gcp_credentials = Except.ok ()) ∧
    ((stream_evaluation req reg orc).local_videos_removed = true ↔
      (stream_evaluation req reg orc).events.getLast? = some Event.complete) := by
  refine ⟨rfl, ?_, ?_⟩
  · cases h : orc.setup_gcp_credentials with
    | ok u =>
      cases u
      simp [stream_evaluation, h]
    | error m =>
      simp [stream_evaluation, h]
  · have hl : (stream_evaluation req reg orc).local_videos_removed =
        (match (stream_body req reg orc).2 with
         | none => true
         | some _ => false) := rfl
    have hev : (stream_evaluation req reg orc).events =
        (stream_body req reg orc).1.events ++
          [terminalEvent (stream_body req reg orc).2] := rfl
    rw [hl, hev]
    cases h2 : (stream_body req reg orc).2 with
    | none => simp [terminalEvent, List.getLast?_append_cons]
    | some m => simp [terminalEvent, List.getLast?_append_cons]

/-- C8.  For two requests identical except that one optional stage is
disabled, the disabled-stage run's computed total is smaller by
exactly that stage's declared unit count: 1 for annotation generation
(under a `GCS` provider tag), 1 for BigQuery storage, and the
category's registry feature count for the Custom and Shorts
evaluation stages. -/
theorem total_optional_stage_delta (req : Request) (reg : Registry) (name : String)
    (hgcs : req.creative_provider_type = "GCS") (hname : name ≠ "") :
    computedTotal { req with use_annotations := true } reg =
      computedTotal { req with use_annotations := false } reg + 1 ∧
    computedTotal { req with bq_table_name := name } reg =
      computedTotal { req with bq_table_name := "" } reg + 1 ∧
    computedTotal { req with run_custom := true } reg =
      computedTotal { req with run_custom := false } reg +
        featureTaskCount reg VideoFeatureCategory.CUSTOM ∧
    computedTotal { req with run_shorts := true } reg =
      computedTotal { req with run_shorts := false } reg +
        featureTaskCount reg VideoFeatureCategory.SHORTS := by
  refine ⟨?_, ?_, ?_, ?_⟩ <;>
    simp only [computedTotal, base_steps, long_form_tasks, shorts_tasks, custom_tasks,
      hgcs, hname] <;>
    split_ifs <;> simp_all <;> omega

/-- Witness for C8 at a concrete request, registry and table name. -/
theorem total_optional_stage_delta_witness :
    reqHappy.creative_provider_type = "GCS" ∧ ("results" : String) ≠ "" ∧
    (computedTotal { reqHappy with use_annotations := true } regSmall =
      computedTotal { reqHappy with use_annotations := false } regSmall + 1 ∧
    computedTotal { reqHappy with bq_table_name := "results" } regSmall =
      computedTotal { reqHappy with bq_table_name := "" } regSmall + 1 ∧
    computedTotal { reqHappy with run_custom := true } regSmall =
      computedTotal { reqHappy with run_custom := false } regSmall +
        featureTaskCount regSmall VideoFeatureCategory.CUSTOM ∧
    computedTotal { reqHappy with run_shorts := true } regSmall =
      computedTotal { reqHappy with run_shorts := false } regSmall +
        featureTaskCount regSmall VideoFeatureCategory.SHORTS) :=
  ⟨rfl, by decide, total_optional_stage_delta reqHappy regSmall "results" rfl (by decide)⟩

end AbcdModal
